import Mathlib

/-!
Shallow embedding of the federation core of the Nothing4You/lemmy snapshot:
the inbound vote pipeline (crates/apub/src/activities/voting/vote.rs), the
object resolver (crates/apub/src/api/resolve_object.rs), and the admin
community purge (crates/api/src/site/purge/community.rs).  External
collaborators (storage layer, remote dereference, view reads, dispatch
queue) are modelled from the specification, as marked on each definition.
-/

abbrev Url := String

abbrev PersonId := Nat

abbrev PostId := Nat

abbrev CommentId := Nat

abbrev CommunityId := Nat

/-- Vote kinds from the protocol type used by vote.rs: Like or Dislike. -/
inductive VoteType
  | Like
  | Dislike
  deriving DecidableEq, Repr

/-- Modelled from the spec: FederationMode (lemmy_db_schema, not under src/)
is the three-valued per-direction policy All / Disabled / LocalOnly; its
default is its zero-value, the first variant All. -/
inductive FederationMode
  | All
  | Disabled
  | LocalOnly
  deriving DecidableEq, Repr

instance : Inhabited FederationMode := ⟨FederationMode.All⟩

/-- The local-site settings consumed by the embedded code: the four vote
federation modes read in vote.rs lines 74-77 and the private-instance flag
consumed by check_private_instance in resolve_object.rs.  The default
record carries each field's zero-value. -/
structure LocalSite where
  post_upvotes : FederationMode
  post_downvotes : FederationMode
  comment_upvotes : FederationMode
  comment_downvotes : FederationMode
  private_instance : Bool
  deriving DecidableEq, Repr

instance : Inhabited LocalSite :=
  ⟨{ post_upvotes := default, post_downvotes := default,
     comment_upvotes := default, comment_downvotes := default,
     private_instance := false }⟩

/-- A person row, with the bot flag consulted by check_bot_account. -/
structure Person where
  id : PersonId
  ap_id : Url
  bot_account : Bool
  deriving DecidableEq, Repr

/-- A post row, with the visibility flags consulted by the resolver views. -/
structure Post where
  id : PostId
  deleted : Bool
  removed : Bool
  deriving DecidableEq, Repr

/-- A comment row, with the visibility flags consulted by the resolver views. -/
structure Comment where
  id : CommentId
  deleted : Bool
  removed : Bool
  deriving DecidableEq, Repr

/-- A community row. -/
structure Community where
  id : CommunityId
  deleted : Bool
  removed : Bool
  deriving DecidableEq, Repr

/-- The target of a vote, matched on in vote.rs receive. -/
inductive PostOrComment
  | Post (p : Post)
  | Comment (c : Comment)
  deriving DecidableEq, Repr

/-- The Vote activity (protocol struct used by vote.rs): actor url, object
url, kind, and the globally unique activity id. -/
structure Vote where
  actor : Url
  object : Url
  kind : VoteType
  id : Url
  deriving DecidableEq, Repr

/-- Modelled from the spec: the external collaborators of the vote pipeline
(spec section 6) — community resolution of the activity, the authority
check of verify_person_in_community, remote dereference of actor and
object, and the outcome of the SiteView local-site read (none models a
storage failure or missing record). -/
structure ApubEnv where
  communityOf : Url → Option CommunityId
  personInCommunity : Url → CommunityId → Bool
  derefPerson : Url → Option Person
  derefObject : Url → Option PostOrComment
  readLocalSite : Option LocalSite

/-- The mutable state the vote pipeline touches: the dedup ledger of
received activity ids and the per-object vote tables keyed by
(person, object). -/
structure VoteState where
  ledger : List Url
  postLikes : List ((PersonId × PostId) × VoteType)
  commentLikes : List ((PersonId × CommentId) × VoteType)
  deriving DecidableEq, Repr

/-- Modelled from the spec: the storage layer's idempotent vote upsert —
this actor's vote value on the object is inserted or replaced. -/
def upsertVote {α : Type} [DecidableEq α] (votes : List ((PersonId × α) × VoteType))
    (a : PersonId) (o : α) (k : VoteType) : List ((PersonId × α) × VoteType) :=
  ((a, o), k) :: votes.filter (fun e => !(e.1 == (a, o)))

/-- Modelled from the spec: the storage layer's vote delete — any vote by
this actor on the object is removed; absent votes make this a no-op. -/
def deleteVote {α : Type} [DecidableEq α] (votes : List ((PersonId × α) × VoteType))
    (a : PersonId) (o : α) : List ((PersonId × α) × VoteType) :=
  votes.filter (fun e => !(e.1 == (a, o)))

/-- The recorded vote of an actor on an object, if any. -/
def lookupVote {α : Type} [DecidableEq α] (votes : List ((PersonId × α) × VoteType))
    (a : PersonId) (o : α) : Option VoteType :=
  (votes.find? (fun e => e.1 == (a, o))).map (fun e => e.2)

/-- Modelled from the spec: vote_post (voting module, not under src/)
upserts the actor's vote on the post. -/
def vote_post (k : VoteType) (actor : Person) (p : Post) (s : VoteState) : VoteState :=
  { s with postLikes := upsertVote s.postLikes actor.id p.id k }

/-- Modelled from the spec: vote_comment upserts the actor's vote on the
comment. -/
def vote_comment (k : VoteType) (actor : Person) (c : Comment) (s : VoteState) : VoteState :=
  { s with commentLikes := upsertVote s.commentLikes actor.id c.id k }

/-- Modelled from the spec: undo_vote_post deletes any existing vote by the
actor on the post; a non-existent vote makes this a no-op, not an error. -/
def undo_vote_post (actor : Person) (p : Post) (s : VoteState) : VoteState :=
  { s with postLikes := deleteVote s.postLikes actor.id p.id }

/-- Modelled from the spec: undo_vote_comment deletes any existing vote by
the actor on the comment. -/
def undo_vote_comment (actor : Person) (c : Comment) (s : VoteState) : VoteState :=
  { s with commentLikes := deleteVote s.commentLikes actor.id c.id }

/-- check_bot_account (lemmy_api_common, not under src/): Modelled from the
spec: activities from bot accounts are rejected; true means the check
fails. -/
def check_bot_account (p : Person) : Bool :=
  p.bot_account

/-- The (downvote, upvote) federation settings for the target kind, the
match of vote.rs lines 74-77. -/
def targetSettings (ls : LocalSite) : PostOrComment → FederationMode × FederationMode
  | PostOrComment.Post _ => (ls.post_downvotes, ls.post_upvotes)
  | PostOrComment.Comment _ => (ls.comment_downvotes, ls.comment_upvotes)

/-- The undo branch of vote.rs lines 85-88: undo on the matching target. -/
def undoVoteOn (actor : Person) : PostOrComment → VoteState → VoteState
  | PostOrComment.Post p, s => undo_vote_post actor p s
  | PostOrComment.Comment c, s => undo_vote_comment actor c s

/-- The apply branch of vote.rs lines 91-94: apply on the matching target. -/
def applyVoteOn (k : VoteType) (actor : Person) : PostOrComment → VoteState → VoteState
  | PostOrComment.Post p, s => vote_post k actor p s
  | PostOrComment.Comment c, s => vote_comment k actor c s

/-- The actor's recorded vote on the given target. -/
def lookupVoteOn (actor : Person) (obj : PostOrComment) (s : VoteState) : Option VoteType :=
  match obj with
  | PostOrComment.Post p => lookupVote s.postLikes actor.id p.id
  | PostOrComment.Comment c => lookupVote s.commentLikes actor.id c.id

/-- Terminal states of the inbound activity pipeline (spec section 4.4). -/
inductive Outcome
  | Applied
  | UndoApplied
  | Rejected
  | DiscardedDuplicate
  | Failed
  deriving DecidableEq, Repr

/-- ActivityHandler::receive for Vote (vote.rs lines 61-96).
insert_received_activity is modelled from the spec (section 4.1):
recordIfNew on the dedup ledger; on AlreadyPresent the pipeline terminates
successfully as a discarded duplicate with no side effects.  The local-site
read mirrors the source exactly: a failed or missing read falls back to the
default record (unwrap_or_default). -/
def Vote.receive (env : ApubEnv) (v : Vote) (s : VoteState) : Outcome × VoteState :=
  if v.id ∈ s.ledger then (Outcome.DiscardedDuplicate, s)
  else
    let s1 : VoteState := { s with ledger := v.id :: s.ledger }
    match env.derefPerson v.actor with
    | none => (Outcome.Failed, s1)
    | some actor =>
      match env.derefObject v.object with
      | none => (Outcome.Failed, s1)
      | some object =>
        if check_bot_account actor then (Outcome.Rejected, s1)
        else
          let local_site := env.readLocalSite.getD default
          let settings := targetSettings local_site object
          let downvote_fail := v.kind == VoteType.Dislike && settings.1 != FederationMode.All
          let upvote_fail := v.kind == VoteType.Like && settings.2 != FederationMode.All
          if downvote_fail || upvote_fail then
            (Outcome.UndoApplied, undoVoteOn actor object s1)
          else
            (Outcome.Applied, applyVoteOn v.kind actor object s1)

/-- How verification can fail in vote.rs lines 55-59. -/
inductive VerifyError
  | CouldntResolveCommunity
  | NotAuthorized
  deriving DecidableEq, Repr

/-- ActivityHandler::verify for Vote (vote.rs lines 55-59): resolve the
activity's community, then verify_person_in_community; the authority check
is modelled from the spec (section 4.2). -/
def Vote.verify (env : ApubEnv) (v : Vote) : Option VerifyError :=
  match env.communityOf v.object with
  | none => some VerifyError.CouldntResolveCommunity
  | some c =>
    if env.personInCommunity v.actor c then none
    else some VerifyError.NotAuthorized

/-- Modelled from the spec: the inbound pipeline (section 4.4) runs verify
strictly before receive; a verification failure is terminal and receive —
dedup insert included — never runs. -/
def processVote (env : ApubEnv) (v : Vote) (s : VoteState) : Outcome × VoteState :=
  match v.verify env with
  | some VerifyError.NotAuthorized => (Outcome.Rejected, s)
  | some VerifyError.CouldntResolveCommunity => (Outcome.Failed, s)
  | none => v.receive env s

/-- The error taxonomy surfaced by the embedded api functions. -/
inductive LemmyErrorType
  | NotFound
  | CouldntFindCommunity
  | NotAdmin
  | StorageError
  | PrivateInstance
  deriving DecidableEq, Repr

/-- A local-user row: the admin flag consulted by convert_response. -/
structure LocalUser where
  admin : Bool
  deriving DecidableEq, Repr

/-- A local-user view: the local-user row plus its person row. -/
structure LocalUserView where
  local_user : LocalUser
  person : Person
  deriving DecidableEq, Repr

/-- A person or a community, from the fetcher (not under src/), matched on
in convert_response. -/
inductive UserOrCommunity
  | User (u : Person)
  | Community (c : Community)
  deriving DecidableEq, Repr

/-- The closed set of objects a search can resolve to (fetcher, not under
src/), matched on in convert_response. -/
inductive SearchableObjects
  | Post (p : Post)
  | Comment (c : Comment)
  | PersonOrCommunity (p : UserOrCommunity)
  deriving DecidableEq, Repr

/-- A post view as returned to the caller. -/
structure PostView where
  post : Post
  deriving DecidableEq, Repr

/-- A comment view as returned to the caller. -/
structure CommentView where
  comment : Comment
  deriving DecidableEq, Repr

/-- A person view as returned to the caller. -/
structure PersonView where
  person : Person
  deriving DecidableEq, Repr

/-- A community view as returned to the caller. -/
structure CommunityView where
  community : Community
  deriving DecidableEq, Repr

/-- The resolve response: four optional fields, all none by default. -/
structure ResolveObjectResponse where
  post : Option PostView := none
  comment : Option CommentView := none
  person : Option PersonView := none
  community : Option CommunityView := none
  deriving DecidableEq, Repr

instance : Inhabited ResolveObjectResponse := ⟨{}⟩

/-- Modelled from the spec: PostView::read (lemmy_db_views, not under src/)
returns the post's view; deleted or removed posts are visible only to
admin-level callers, every other caller gets NotFound (section 4.6),
pinned by test_object_visibility in resolve_object.rs. -/
def PostView.read (p : Post) (is_admin : Bool) : Option PostView :=
  if (p.deleted || p.removed) && !is_admin then none else some { post := p }

/-- Modelled from the spec: CommentView::read returns the comment's view;
deleted or removed comments are visible only to admin-level callers
(section 4.6); the caller's admin flag travels in the local-user row. -/
def CommentView.read (c : Comment) (local_user : Option LocalUser) : Option CommentView :=
  if (c.deleted || c.removed) && !((local_user.map (fun l => l.admin)).getD false) then none
  else some { comment := c }

/-- Modelled from the spec: PersonView::read returns the person's view. -/
def PersonView.read (u : Person) : Option PersonView :=
  some { person := u }

/-- Modelled from the spec: CommunityView::read returns the community's
view; deleted or removed communities are visible only to admin-level
callers (section 4.6). -/
def CommunityView.read (c : Community) (is_admin : Bool) : Option CommunityView :=
  if (c.deleted || c.removed) && !is_admin then none else some { community := c }

/-- convert_response (resolve_object.rs lines 43-65): starting from the
default response, set exactly the field of the resolved variant; a view
read that hides the object surfaces as none. -/
def convert_response (object : SearchableObjects) (local_user_view : Option LocalUserView) :
    Option ResolveObjectResponse :=
  let res : ResolveObjectResponse := default
  let local_user := local_user_view.map (fun l => l.local_user)
  let is_admin := (local_user.map (fun l => l.admin)).getD false
  match object with
  | SearchableObjects.Post p =>
    (PostView.read p is_admin).map (fun v => { res with post := some v })
  | SearchableObjects.Comment c =>
    (CommentView.read c local_user).map (fun v => { res with comment := some v })
  | SearchableObjects.PersonOrCommunity (UserOrCommunity.User u) =>
    (PersonView.read u).map (fun v => { res with person := some v })
  | SearchableObjects.PersonOrCommunity (UserOrCommunity.Community c) =>
    (CommunityView.read c is_admin).map (fun v => { res with community := some v })

/-- Modelled from the spec: the object stores the resolver consults — the
locally-known objects and the objects reachable only by a remote network
dereference — plus the outcome of the LocalSite read (none models a
storage failure). -/
structure ResolveEnv where
  localObjects : String → Option SearchableObjects
  remoteObjects : String → Option SearchableObjects
  readLocalSite : Option LocalSite

/-- Modelled from the spec: search_query_to_object_id (fetcher, not under
src/) — the remote-capable search: a locally-known object is returned
directly, otherwise a remote network dereference is attempted. -/
def search_query_to_object_id (env : ResolveEnv) (q : String) : Option SearchableObjects :=
  match env.localObjects q with
  | some o => some o
  | none => env.remoteObjects q

/-- Modelled from the spec: search_query_to_object_id_local — the
local-only search; no remote dereference is ever attempted. -/
def search_query_to_object_id_local (env : ResolveEnv) (q : String) : Option SearchableObjects :=
  env.localObjects q

/-- check_private_instance (lemmy_api_common, not under src/): Modelled
from the spec's authentication layer: unauthenticated callers are denied
on a private instance; true means the check fails. -/
def check_private_instance (local_user_view : Option LocalUserView) (local_site : LocalSite) : Bool :=
  local_user_view.isNone && local_site.private_instance

/-- resolve_object (resolve_object.rs lines 17-41).  debugAssertions is the
build flag cfg!(debug_assertions).  Search and conversion failures are
mapped to NotFound by with_lemmy_type, exactly as in the source; the
LocalSite read and the private-instance check fail before that mapping. -/
def resolve_object (debugAssertions : Bool) (env : ResolveEnv) (q : String)
    (local_user_view : Option LocalUserView) :
    Except LemmyErrorType ResolveObjectResponse :=
  match env.readLocalSite with
  | none => Except.error LemmyErrorType.StorageError
  | some local_site =>
    if check_private_instance local_user_view local_site then
      Except.error LemmyErrorType.PrivateInstance
    else
      let is_authenticated := local_user_view.isSome
      let res :=
        if is_authenticated || debugAssertions then
          search_query_to_object_id env q
        else
          search_query_to_object_id_local env q
      match res with
      | none => Except.error LemmyErrorType.NotFound
      | some object =>
        match convert_response object local_user_view with
        | none => Except.error LemmyErrorType.NotFound
        | some r => Except.ok r

/-- How many of the four response fields are set. -/
def ResolveObjectResponse.someCount (r : ResolveObjectResponse) : Nat :=
  (if r.post.isSome then 1 else 0) + (if r.comment.isSome then 1 else 0) +
    (if r.person.isSome then 1 else 0) + (if r.community.isSome then 1 else 0)

/-- The moderation-log record written by purge_community: acting admin and
supplied reason. -/
structure AdminPurgeCommunityForm where
  admin_person_id : PersonId
  reason : Option String
  deriving DecidableEq, Repr

/-- The outbound dispatch item variants submitted by the embedded code. -/
inductive SendActivityData
  | RemoveCommunity (moderator : Person) (community : Community)
      (reason : Option String) (removed : Bool)
  deriving DecidableEq, Repr

/-- The site state the purge touches: community rows, the images attached
to each community, the moderation log, and the outbound dispatch queue. -/
structure SiteState where
  communities : List Community
  images : List (CommunityId × String)
  modLog : List AdminPurgeCommunityForm
  queue : List SendActivityData
  deriving DecidableEq, Repr

/-- Modelled from the spec: Community::read (storage layer, not under src/)
returns the community row with the given id, if present. -/
def Community.read (s : SiteState) (id : CommunityId) : Option Community :=
  s.communities.find? (fun c => c.id == id)

/-- Modelled from the spec: Community::delete (storage layer, not under
src/) removes the community row; the community's images are deleted with
it (spec section 8 end-to-end scenario). -/
def Community.delete (s : SiteState) (id : CommunityId) : SiteState :=
  { s with communities := s.communities.filter (fun c => !(c.id == id)),
           images := s.images.filter (fun i => !(i.1 == id)) }

/-- Modelled from the spec: AdminPurgeCommunity::create (storage layer, not
under src/) appends one moderation-log record. -/
def AdminPurgeCommunity.create (s : SiteState) (form : AdminPurgeCommunityForm) : SiteState :=
  { s with modLog := s.modLog ++ [form] }

/-- Modelled from the spec: ActivityChannel::submit_activity
(lemmy_api_common, not under src/) appends the dispatch item to the
outbound queue and returns immediately; delivery is the queue consumer's
concern (section 4.5). -/
def ActivityChannel.submit_activity (s : SiteState) (d : SendActivityData) : SiteState :=
  { s with queue := s.queue ++ [d] }

/-- The request body of the purge endpoint. -/
structure PurgeCommunity where
  community_id : CommunityId
  reason : Option String
  deriving DecidableEq, Repr

/-- The success response of the purge endpoint. -/
structure SuccessResponse where
  success : Bool
  deriving DecidableEq, Repr

/-- is_admin (lemmy_api_common, not under src/): Modelled from the spec:
only admin callers may purge. -/
def is_admin (u : LocalUserView) : Bool :=
  u.local_user.admin

/-- purge_community (community.rs lines 20-55): admin gate, read the
community, delete it, write one moderation-log record, submit one
RemoveCommunity dispatch item with the reason and removed = true. -/
def purge_community (data : PurgeCommunity) (s : SiteState) (local_user_view : LocalUserView) :
    Except LemmyErrorType (SuccessResponse × SiteState) :=
  if !is_admin local_user_view then Except.error LemmyErrorType.NotAdmin
  else
    match Community.read s data.community_id with
    | none => Except.error LemmyErrorType.CouldntFindCommunity
    | some community =>
      let s1 := Community.delete s data.community_id
      let form : AdminPurgeCommunityForm :=
        { admin_person_id := local_user_view.person.id, reason := data.reason }
      let s2 := AdminPurgeCommunity.create s1 form
      let s3 := ActivityChannel.submit_activity s2
        (SendActivityData.RemoveCommunity local_user_view.person community data.reason true)
      Except.ok ({ success := true }, s3)

/-- Modelled from the spec: the dispatch queue consumer drains the queue
and attempts delivery of each item to each destination; an individual
delivery may fail (failure item dst = true), is logged and abandoned. -/
def deliverQueue (failure : SendActivityData → Nat → Bool) (destinations : List Nat)
    (queue : List SendActivityData) : List Bool :=
  queue.flatMap (fun d => destinations.map (fun dst => !failure d dst))

/-- The purge request followed by the queue consumer's delivery round: the
response the caller already received, next to the delivery outcomes. -/
def purgeThenDeliver (failure : SendActivityData → Nat → Bool) (destinations : List Nat)
    (data : PurgeCommunity) (s : SiteState) (u : LocalUserView) :
    Except LemmyErrorType SuccessResponse :=
  match purge_community data s u with
  | Except.error e => Except.error e
  | Except.ok (resp, s2) =>
    let _ := deliverQueue failure destinations s2.queue
    Except.ok resp

/-- A sample remote actor. -/
def samplePerson : Person :=
  { id := 1, ap_id := "https://remote.example/u/alice", bot_account := false }

/-- A sample local post. -/
def samplePost : Post := { id := 10, deleted := false, removed := false }

/-- A sample local comment. -/
def sampleComment : Comment := { id := 11, deleted := false, removed := false }

/-- A remote Dislike on the sample post. -/
def sampleDislikePost : Vote :=
  { actor := "https://remote.example/u/alice",
    object := "https://local.example/post/10",
    kind := VoteType.Dislike,
    id := "https://remote.example/activity/1" }

/-- Site settings with post downvote federation restricted to LocalOnly. -/
def sampleLocalSite : LocalSite :=
  { post_upvotes := FederationMode.All, post_downvotes := FederationMode.LocalOnly,
    comment_upvotes := FederationMode.All, comment_downvotes := FederationMode.All,
    private_instance := false }

/-- A sample environment: the sample actor and post dereference, everyone
is authorized, and the local-site read yields sampleLocalSite. -/
def sampleApubEnv : ApubEnv :=
  { communityOf := fun _ => some 5,
    personInCommunity := fun _ _ => true,
    derefPerson := fun u =>
      if u == "https://remote.example/u/alice" then some samplePerson else none,
    derefObject := fun u =>
      if u == "https://local.example/post/10" then some (PostOrComment.Post samplePost)
      else none,
    readLocalSite := some sampleLocalSite }

/-- The sample environment with the authority check failing. -/
def unauthorizedApubEnv : ApubEnv :=
  { sampleApubEnv with personInCommunity := fun _ _ => false }

/-- The sample environment with the local-site read failing. -/
def noSiteApubEnv : ApubEnv :=
  { sampleApubEnv with readLocalSite := none }

/-- The empty pipeline state. -/
def emptyVoteState : VoteState := { ledger := [], postLikes := [], commentLikes := [] }

/-- A state in which the sample actor already holds a Like on the sample
post. -/
def sampleStateWithVote : VoteState :=
  { ledger := [], postLikes := [((1, 10), VoteType.Like)], commentLikes := [] }

/-- A deleted post for the resolver claims. -/
def deletedPost : Post := { id := 20, deleted := true, removed := false }

/-- A visible post for the resolver claims. -/
def visiblePost : Post := { id := 21, deleted := false, removed := false }

/-- An authenticated non-admin caller. -/
def regularUser : LocalUserView :=
  { local_user := { admin := false },
    person := { id := 2, ap_id := "https://local.example/u/bob", bot_account := false } }

/-- An authenticated admin caller. -/
def adminUser : LocalUserView :=
  { local_user := { admin := true },
    person := { id := 3, ap_id := "https://local.example/u/carol", bot_account := false } }

/-- A resolver environment holding only the deleted post, locally. -/
def deletedPostEnv : ResolveEnv :=
  { localObjects := fun q =>
      if q == "https://local.example/post/20" then some (SearchableObjects.Post deletedPost)
      else none,
    remoteObjects := fun _ => none,
    readLocalSite := some sampleLocalSite }

/-- A resolver environment whose only object is known remotely. -/
def remoteOnlyEnv : ResolveEnv :=
  { localObjects := fun _ => none,
    remoteObjects := fun q =>
      if q == "https://remote.example/post/21" then some (SearchableObjects.Post visiblePost)
      else none,
    readLocalSite := some sampleLocalSite }

/-- A resolver environment holding the visible post locally. -/
def localVisibleEnv : ResolveEnv :=
  { localObjects := fun q =>
      if q == "https://local.example/post/21" then some (SearchableObjects.Post visiblePost)
      else none,
    remoteObjects := fun _ => none,
    readLocalSite := some sampleLocalSite }

/-- A sample community with one image, for the purge claims. -/
def sampleCommunity : Community := { id := 7, deleted := false, removed := false }

/-- The site state before the purge. -/
def sampleSiteState : SiteState :=
  { communities := [sampleCommunity],
    images := [(7, "https://local.example/image/banner.png")],
    modLog := [],
    queue := [] }

/-- The sample purge request. -/
def samplePurge : PurgeCommunity := { community_id := 7, reason := some "spam" }

theorem find?_filter_bnot {γ : Type} (p : γ → Bool) (l : List γ) :
    (l.filter (fun x => !p x)).find? p = none := by
  induction l with
  | nil => rfl
  | cons x xs ih =>
    cases hx : p x with
    | true => simp [List.filter_cons, hx, ih]
    | false => simp [List.filter_cons, List.find?_cons, hx, ih]

theorem filter_idem {γ : Type} (p : γ → Bool) (l : List γ) :
    (l.filter p).filter p = l.filter p := by
  induction l with
  | nil => rfl
  | cons x xs ih =>
    cases hx : p x with
    | true => simp [List.filter_cons, hx, ih]
    | false => simp [List.filter_cons, hx, ih]

theorem filter_filter_bnot {γ : Type} (p : γ → Bool) (l : List γ) :
    (l.filter (fun x => !p x)).filter p = [] := by
  induction l with
  | nil => rfl
  | cons x xs ih =>
    cases hx : p x with
    | true => simp [List.filter_cons, hx, ih]
    | false => simp [List.filter_cons, hx, ih]

theorem filter_bnot_of_find?_none {γ : Type} (p : γ → Bool) (l : List γ)
    (h : l.find? p = none) : l.filter (fun x => !p x) = l := by
  induction l with
  | nil => rfl
  | cons x xs ih =>
    cases hx : p x with
    | true =>
      rw [List.find?_cons_of_pos _ hx] at h
      exact absurd h (by simp)
    | false =>
      rw [List.find?_cons_of_neg _ (by simp [hx])] at h
      simp [List.filter_cons, hx, ih h]

theorem lookupVote_upsertVote {α : Type} [DecidableEq α]
    (votes : List ((PersonId × α) × VoteType)) (a : PersonId) (o : α) (k : VoteType) :
    lookupVote (upsertVote votes a o k) a o = some k := by
  simp [lookupVote, upsertVote, List.find?_cons]

theorem lookupVote_deleteVote {α : Type} [DecidableEq α]
    (votes : List ((PersonId × α) × VoteType)) (a : PersonId) (o : α) :
    lookupVote (deleteVote votes a o) a o = none := by
  unfold lookupVote deleteVote
  rw [find?_filter_bnot]
  rfl

theorem upsertVote_idem {α : Type} [DecidableEq α]
    (votes : List ((PersonId × α) × VoteType)) (a : PersonId) (o : α) (k : VoteType) :
    upsertVote (upsertVote votes a o k) a o k = upsertVote votes a o k := by
  unfold upsertVote
  rw [List.filter_cons]
  simp [filter_idem]

theorem deleteVote_idem {α : Type} [DecidableEq α]
    (votes : List ((PersonId × α) × VoteType)) (a : PersonId) (o : α) :
    deleteVote (deleteVote votes a o) a o = deleteVote votes a o := by
  unfold deleteVote
  exact filter_idem _ votes

theorem deleteVote_of_lookup_none {α : Type} [DecidableEq α]
    (votes : List ((PersonId × α) × VoteType)) (a : PersonId) (o : α)
    (h : lookupVote votes a o = none) : deleteVote votes a o = votes := by
  unfold deleteVote
  apply filter_bnot_of_find?_none
  unfold lookupVote at h
  cases hf : votes.find? (fun e => e.1 == (a, o)) with
  | none => rfl
  | some e => rw [hf] at h; exact absurd h (by simp)

theorem undoVoteOn_ledger (actor : Person) (obj : PostOrComment) (s : VoteState) :
    (undoVoteOn actor obj s).ledger = s.ledger := by
  cases obj <;> rfl

theorem applyVoteOn_ledger (k : VoteType) (actor : Person) (obj : PostOrComment)
    (s : VoteState) : (applyVoteOn k actor obj s).ledger = s.ledger := by
  cases obj <;> rfl

theorem lookupVoteOn_undoVoteOn (actor : Person) (obj : PostOrComment) (s : VoteState) :
    lookupVoteOn actor obj (undoVoteOn actor obj s) = none := by
  cases obj <;>
    simp [lookupVoteOn, undoVoteOn, undo_vote_post, undo_vote_comment, lookupVote_deleteVote]

theorem lookupVoteOn_applyVoteOn (k : VoteType) (actor : Person) (obj : PostOrComment)
    (s : VoteState) : lookupVoteOn actor obj (applyVoteOn k actor obj s) = some k := by
  cases obj <;>
    simp [lookupVoteOn, applyVoteOn, vote_post, vote_comment, lookupVote_upsertVote]

theorem receive_ledger_mem (env : ApubEnv) (v : Vote) (s : VoteState) :
    v.id ∈ (v.receive env s).2.ledger := by
  unfold Vote.receive
  by_cases h : v.id ∈ s.ledger
  · simp [h]
  · simp only [if_neg h]
    cases hd : env.derefPerson v.actor with
    | none => simp
    | some actor =>
      cases ho : env.derefObject v.object with
      | none => simp
      | some obj =>
        by_cases hb : check_bot_account actor
        · simp [hb]
        · simp only [hb, if_false, Bool.false_eq_true]
          split <;> simp [undoVoteOn_ledger, applyVoteOn_ledger]

/-- C2: for every vote activity whose actor is not authorized in the target
community, verification fails with NotAuthorized and processing performs no
dedup-ledger insertion and no vote mutation: the pipeline returns Rejected
with the state exactly as it was, because the authority check runs strictly
before receive and hence before the dedup write and any state change. -/
theorem unauthorized_vote_no_mutation (env : ApubEnv) (v : Vote) (s : VoteState)
    (h : v.verify env = some VerifyError.NotAuthorized) :
    processVote env v s = (Outcome.Rejected, s) := by
  unfold processVote
  rw [h]

theorem unauthorized_vote_no_mutation_witness :
    sampleDislikePost.verify unauthorizedApubEnv = some VerifyError.NotAuthorized ∧
    processVote unauthorizedApubEnv sampleDislikePost sampleStateWithVote =
      (Outcome.Rejected, sampleStateWithVote) :=
  ⟨by decide,
    unauthorized_vote_no_mutation unauthorizedApubEnv sampleDislikePost sampleStateWithVote
      (by decide)⟩

/-- C3: an activity identifier already present in the dedup ledger
terminates processing successfully as a discarded duplicate with the state
untouched (no dereference, bot check or vote mutation can be observed), and
processing the same inbound activity twice mutates the state exactly once:
the second run discards and returns the state of the first run unchanged. -/
theorem duplicate_discarded_no_side_effects (env : ApubEnv) (v : Vote) (s : VoteState) :
    (v.id ∈ s.ledger → v.receive env s = (Outcome.DiscardedDuplicate, s)) ∧
    (v.verify env = none → v.id ∉ s.ledger →
      processVote env v (processVote env v s).2 =
        (Outcome.DiscardedDuplicate, (processVote env v s).2)) := by
  constructor
  · intro h
    unfold Vote.receive
    simp [h]
  · intro hv _hdup
    have hmem : v.id ∈ (processVote env v s).2.ledger := by
      unfold processVote
      rw [hv]
      exact receive_ledger_mem env v s
    generalize (processVote env v s).2 = s1 at hmem ⊢
    unfold processVote
    simp only [hv]
    unfold Vote.receive
    rw [if_pos hmem]

theorem duplicate_discarded_no_side_effects_witness :
    sampleDislikePost.verify sampleApubEnv = none ∧
    sampleDislikePost.id ∉ emptyVoteState.ledger ∧
    processVote sampleApubEnv sampleDislikePost
        (processVote sampleApubEnv sampleDislikePost emptyVoteState).2 =
      (Outcome.DiscardedDuplicate,
        (processVote sampleApubEnv sampleDislikePost emptyVoteState).2) :=
  ⟨by decide, by decide,
    (duplicate_discarded_no_side_effects sampleApubEnv sampleDislikePost emptyVoteState).2
      (by decide) (by decide)⟩

/-- C6 counterexample: at this concrete environment the local-site read
fails, yet the inbound Dislike is processed and applied under the default
federation policy; processing does not fail, refuting the claim that a
failed settings read is propagated as Failed. -/
theorem local_site_read_failure_not_failed_cx :
    noSiteApubEnv.readLocalSite = none ∧
    (sampleDislikePost.receive noSiteApubEnv emptyVoteState).1 = Outcome.Applied ∧
    (sampleDislikePost.receive noSiteApubEnv emptyVoteState).1 ≠ Outcome.Failed := by
  decide

/-- C6 amended: when reading the local site settings fails, receive does
not fail; it proceeds exactly as it would with the default local-site
record, every federation mode its zero-value All (unwrap_or_default in
vote.rs lines 69-72). -/
theorem local_site_read_failure_uses_default (env : ApubEnv) (v : Vote) (s : VoteState)
    (h : env.readLocalSite = none) :
    v.receive env s = v.receive { env with readLocalSite := some default } s := by
  unfold Vote.receive
  simp [h]

theorem local_site_read_failure_uses_default_witness :
    noSiteApubEnv.readLocalSite = none ∧
    sampleDislikePost.receive noSiteApubEnv emptyVoteState =
      sampleDislikePost.receive { noSiteApubEnv with readLocalSite := some default }
        emptyVoteState :=
  ⟨by decide,
    local_site_read_failure_uses_default noSiteApubEnv sampleDislikePost emptyVoteState
      (by decide)⟩

/-- C8: vote application and undo are idempotent — applying an identical
Like from the same actor on the same object twice leaves the same final
vote state as applying it once (posts and comments alike), undoing twice
equals undoing once, and undoing a non-existent vote is a no-op, not an
error (the modelled storage operations are total). -/
theorem vote_apply_undo_idempotent (actor : Person) (p : Post) (c : Comment)
    (s : VoteState) :
    vote_post VoteType.Like actor p (vote_post VoteType.Like actor p s) =
      vote_post VoteType.Like actor p s ∧
    vote_comment VoteType.Like actor c (vote_comment VoteType.Like actor c s) =
      vote_comment VoteType.Like actor c s ∧
    undo_vote_post actor p (undo_vote_post actor p s) = undo_vote_post actor p s ∧
    (lookupVote s.postLikes actor.id p.id = none → undo_vote_post actor p s = s) := by
  refine ⟨?_, ?_, ?_, ?_⟩
  · simp [vote_post, upsertVote_idem]
  · simp [vote_comment, upsertVote_idem]
  · simp [undo_vote_post, deleteVote_idem]
  · intro h
    simp [undo_vote_post, deleteVote_of_lookup_none _ _ _ h]

theorem vote_apply_undo_idempotent_witness :
    lookupVote emptyVoteState.postLikes samplePerson.id samplePost.id = none ∧
    undo_vote_post samplePerson samplePost emptyVoteState = emptyVoteState :=
  ⟨by decide,
    (vote_apply_undo_idempotent samplePerson samplePost sampleComment emptyVoteState).2.2.2
      (by decide)⟩

/-- C1: for every inbound vote activity that passes dedup, dereference and
the bot check, the policy decision of receive is: if the vote kind is
Dislike and the configured downvote mode for the target's kind is not All,
or the kind is Like and the configured upvote mode for the target's kind
is not All, the actor's existing vote on the target is undone and no vote
of theirs remains recorded; in every other case the vote is applied and
recorded. -/
theorem vote_policy_decision (env : ApubEnv) (v : Vote) (s : VoteState)
    (hdup : v.id ∉ s.ledger) (actor : Person)
    (hactor : env.derefPerson v.actor = some actor)
    (obj : PostOrComment) (hobj : env.derefObject v.object = some obj)
    (hbot : actor.bot_account = false) :
    ((v.kind = VoteType.Dislike ∧
        (targetSettings (env.readLocalSite.getD default) obj).1 ≠ FederationMode.All) ∨
     (v.kind = VoteType.Like ∧
        (targetSettings (env.readLocalSite.getD default) obj).2 ≠ FederationMode.All) →
      v.receive env s =
        (Outcome.UndoApplied, undoVoteOn actor obj { s with ledger := v.id :: s.ledger }) ∧
      lookupVoteOn actor obj (v.receive env s).2 = none) ∧
    (¬ ((v.kind = VoteType.Dislike ∧
          (targetSettings (env.readLocalSite.getD default) obj).1 ≠ FederationMode.All) ∨
        (v.kind = VoteType.Like ∧
          (targetSettings (env.readLocalSite.getD default) obj).2 ≠ FederationMode.All)) →
      v.receive env s =
        (Outcome.Applied, applyVoteOn v.kind actor obj { s with ledger := v.id :: s.ledger }) ∧
      lookupVoteOn actor obj (v.receive env s).2 = some v.kind) := by
  have hrec : v.receive env s =
      if (v.kind == VoteType.Dislike &&
            (targetSettings (env.readLocalSite.getD default) obj).1 != FederationMode.All) ||
          (v.kind == VoteType.Like &&
            (targetSettings (env.readLocalSite.getD default) obj).2 != FederationMode.All) then
        (Outcome.UndoApplied, undoVoteOn actor obj { s with ledger := v.id :: s.ledger })
      else
        (Outcome.Applied, applyVoteOn v.kind actor obj { s with ledger := v.id :: s.ledger }) := by
    unfold Vote.receive
    rw [if_neg hdup]
    simp [hactor, hobj, check_bot_account, hbot]
  have hiff : ((v.kind == VoteType.Dislike &&
        (targetSettings (env.readLocalSite.getD default) obj).1 != FederationMode.All) ||
      (v.kind == VoteType.Like &&
        (targetSettings (env.readLocalSite.getD default) obj).2 != FederationMode.All)) = true ↔
      ((v.kind = VoteType.Dislike ∧
          (targetSettings (env.readLocalSite.getD default) obj).1 ≠ FederationMode.All) ∨
       (v.kind = VoteType.Like ∧
          (targetSettings (env.readLocalSite.getD default) obj).2 ≠ FederationMode.All)) := by
    simp [Bool.or_eq_true, Bool.and_eq_true, beq_iff_eq, bne_iff_ne]
  by_cases hP : ((v.kind = VoteType.Dislike ∧
      (targetSettings (env.readLocalSite.getD default) obj).1 ≠ FederationMode.All) ∨
    (v.kind = VoteType.Like ∧
      (targetSettings (env.readLocalSite.getD default) obj).2 ≠ FederationMode.All))
  · have hb := hiff.mpr hP
    refine ⟨fun _ => ⟨by rw [hrec, if_pos hb], ?_⟩, fun hn => absurd hP hn⟩
    rw [hrec, if_pos hb]
    exact lookupVoteOn_undoVoteOn actor obj _
  · have hb : ((v.kind == VoteType.Dislike &&
        (targetSettings (env.readLocalSite.getD default) obj).1 != FederationMode.All) ||
      (v.kind == VoteType.Like &&
        (targetSettings (env.readLocalSite.getD default) obj).2 != FederationMode.All)) = false := by
      cases hcase : ((v.kind == VoteType.Dislike &&
          (targetSettings (env.readLocalSite.getD default) obj).1 != FederationMode.All) ||
        (v.kind == VoteType.Like &&
          (targetSettings (env.readLocalSite.getD default) obj).2 != FederationMode.All)) with
      | true => exact absurd (hiff.mp hcase) hP
      | false => rfl
    refine ⟨fun hp => absurd hp hP, fun _ => ⟨by rw [hrec, if_neg (by simp [hb])], ?_⟩⟩
    rw [hrec, if_neg (by simp [hb])]
    exact lookupVoteOn_applyVoteOn v.kind actor obj _

theorem vote_policy_decision_witness :
    sampleDislikePost.receive sampleApubEnv sampleStateWithVote =
      (Outcome.UndoApplied,
        { ledger := ["https://remote.example/activity/1"], postLikes := [],
          commentLikes := [] }) ∧
    lookupVoteOn samplePerson (PostOrComment.Post samplePost)
      (sampleDislikePost.receive sampleApubEnv sampleStateWithVote).2 = none := by
  have h := (vote_policy_decision sampleApubEnv sampleDislikePost sampleStateWithVote
    (by decide) samplePerson (by decide) (PostOrComment.Post samplePost) (by decide)
    (by decide)).1 (by decide)
  exact ⟨h.1.trans (by decide), h.2⟩

theorem ResolveObjectResponse.default_eq :
    (default : ResolveObjectResponse) =
      { post := none, comment := none, person := none, community := none } := rfl

/-- C4 counterexample: with debug assertions enabled (cfg debug_assertions
in resolve_object.rs line 29) an unauthenticated caller is given the
remote-capable search path: an identifier known only remotely resolves
successfully instead of yielding NotFound. -/
theorem resolve_unauthenticated_debug_cx :
    resolve_object true remoteOnlyEnv "https://remote.example/post/21" none =
      Except.ok { post := some { post := visiblePost } } ∧
    resolve_object true remoteOnlyEnv "https://remote.example/post/21" none ≠
      Except.error LemmyErrorType.NotFound := by
  constructor
  · rfl
  · intro h
    rw [show resolve_object true remoteOnlyEnv "https://remote.example/post/21" none =
        Except.ok { post := some { post := visiblePost } } from rfl] at h
    exact Except.noConfusion h

/-- C4 amended: in a release build (debug assertions disabled) an
unauthenticated caller is restricted to the local-only search path, so an
identifier known only remotely yields NotFound; an authenticated caller
uses the remote-capable search path in every build and receives the
resolved object whenever the search finds it and it is visible. -/
theorem resolve_trust_gate (env : ResolveEnv) (q : String) (ls : LocalSite)
    (hsite : env.readLocalSite = some ls) (hpriv : ls.private_instance = false) :
    (env.localObjects q = none →
      resolve_object false env q none = Except.error LemmyErrorType.NotFound) ∧
    (∀ (d : Bool) (u : LocalUserView) (o : SearchableObjects) (r : ResolveObjectResponse),
      search_query_to_object_id env q = some o →
      convert_response o (some u) = some r →
      resolve_object d env q (some u) = Except.ok r) := by
  constructor
  · intro hl
    unfold resolve_object
    rw [hsite]
    simp [check_private_instance, hpriv, search_query_to_object_id_local, hl]
  · intro d u o r hfound hconv
    unfold resolve_object
    rw [hsite]
    simp [check_private_instance, hpriv, hfound, hconv]

theorem resolve_trust_gate_witness :
    resolve_object false remoteOnlyEnv "https://remote.example/post/21" none =
      Except.error LemmyErrorType.NotFound ∧
    resolve_object false localVisibleEnv "https://local.example/post/21" (some regularUser) =
      Except.ok { post := some { post := visiblePost } } := by
  have h1 := (resolve_trust_gate remoteOnlyEnv "https://remote.example/post/21"
    sampleLocalSite rfl rfl).1 (by decide)
  have h2 := (resolve_trust_gate localVisibleEnv "https://local.example/post/21"
    sampleLocalSite rfl rfl).2 false regularUser (SearchableObjects.Post visiblePost)
    { post := some { post := visiblePost } } (by decide) (by decide)
  exact ⟨h1, h2⟩

/-- C5: a deleted post is resolved as NotFound by every non-admin caller,
authenticated or not, exactly as if the object did not exist; an admin
caller receives the post, whose deleted flag is set. -/
theorem resolve_deleted_post_visibility (env : ResolveEnv) (q : String) (ls : LocalSite)
    (p : Post) (hsite : env.readLocalSite = some ls) (hpriv : ls.private_instance = false)
    (hlocal : env.localObjects q = some (SearchableObjects.Post p))
    (hdel : p.deleted = true) :
    (∀ d : Bool, resolve_object d env q none = Except.error LemmyErrorType.NotFound) ∧
    (∀ (d : Bool) (u : LocalUserView), u.local_user.admin = false →
      resolve_object d env q (some u) = Except.error LemmyErrorType.NotFound) ∧
    (∀ (d : Bool) (u : LocalUserView), u.local_user.admin = true →
      resolve_object d env q (some u) = Except.ok { post := some { post := p } }) := by
  refine ⟨?_, ?_, ?_⟩
  · intro d
    unfold resolve_object
    rw [hsite]
    cases d <;>
      simp [check_private_instance, hpriv, search_query_to_object_id,
        search_query_to_object_id_local, hlocal, convert_response, PostView.read, hdel]
  · intro d u hadm
    unfold resolve_object
    rw [hsite]
    cases d <;>
      simp [check_private_instance, hpriv, search_query_to_object_id,
        search_query_to_object_id_local, hlocal, convert_response, PostView.read, hdel, hadm,
        ResolveObjectResponse.default_eq]
  · intro d u hadm
    unfold resolve_object
    rw [hsite]
    cases d <;>
      simp [check_private_instance, hpriv, search_query_to_object_id,
        search_query_to_object_id_local, hlocal, convert_response, PostView.read, hdel, hadm,
        ResolveObjectResponse.default_eq]

theorem resolve_deleted_post_visibility_witness :
    resolve_object false deletedPostEnv "https://local.example/post/20" none =
      Except.error LemmyErrorType.NotFound ∧
    resolve_object false deletedPostEnv "https://local.example/post/20" (some regularUser) =
      Except.error LemmyErrorType.NotFound ∧
    resolve_object false deletedPostEnv "https://local.example/post/20" (some adminUser) =
      Except.ok { post := some { post := deletedPost } } := by
  have h := resolve_deleted_post_visibility deletedPostEnv "https://local.example/post/20"
    sampleLocalSite deletedPost rfl rfl (by decide) rfl
  exact ⟨h.1 false, h.2.1 false regularUser rfl, h.2.2 false adminUser rfl⟩

theorem convert_response_someCount (object : SearchableObjects) (u : Option LocalUserView)
    (r : ResolveObjectResponse) (h : convert_response object u = some r) :
    r.someCount = 1 := by
  cases object with
  | Post p =>
    simp only [convert_response, Option.map_eq_some'] at h
    obtain ⟨v, _, hr⟩ := h
    subst hr
    rfl
  | Comment c =>
    simp only [convert_response, Option.map_eq_some'] at h
    obtain ⟨v, _, hr⟩ := h
    subst hr
    rfl
  | PersonOrCommunity pc =>
    cases pc with
    | User uu =>
      simp only [convert_response, PersonView.read, Option.map_eq_some'] at h
      obtain ⟨v, _, hr⟩ := h
      subst hr
      rfl
    | Community cc =>
      simp only [convert_response, Option.map_eq_some'] at h
      obtain ⟨v, _, hr⟩ := h
      subst hr
      rfl

/-- C10: every successful resolve_object response has exactly one of the
four optional fields (post, comment, person, community) set: the response
behaves as a tagged union although it is four optional fields. -/
theorem resolve_response_tagged_union (d : Bool) (env : ResolveEnv) (q : String)
    (u : Option LocalUserView) (r : ResolveObjectResponse)
    (h : resolve_object d env q u = Except.ok r) :
    r.someCount = 1 := by
  cases hsite : env.readLocalSite with
  | none =>
    simp only [resolve_object, hsite] at h
    exact Except.noConfusion h
  | some ls =>
    by_cases hp : check_private_instance u ls = true
    · simp only [resolve_object, hsite, if_pos hp] at h
      exact Except.noConfusion h
    · cases hres : (if u.isSome || d then search_query_to_object_id env q
          else search_query_to_object_id_local env q) with
      | none =>
        simp only [resolve_object, hsite, if_neg hp, hres] at h
        exact Except.noConfusion h
      | some o =>
        cases hconv : convert_response o u with
        | none =>
          simp only [resolve_object, hsite, if_neg hp, hres, hconv] at h
          exact Except.noConfusion h
        | some r0 =>
          simp only [resolve_object, hsite, if_neg hp, hres, hconv, Except.ok.injEq] at h
          subst h
          exact convert_response_someCount o u _ hconv

theorem resolve_response_tagged_union_witness :
    ResolveObjectResponse.someCount { post := some { post := visiblePost } } = 1 :=
  resolve_response_tagged_union false localVisibleEnv "https://local.example/post/21" none
    { post := some { post := visiblePost } } rfl

/-- C7: a successful admin purge of an existing community deletes the
community (it can no longer be read) together with its images, creates
exactly one moderation-log record carrying the acting admin's id and the
supplied reason, and submits exactly one RemoveCommunity dispatch item to
the outbound queue carrying that reason and removed = true. -/
theorem purge_community_effects (data : PurgeCommunity) (s : SiteState)
    (u : LocalUserView) (c : Community) (hadmin : is_admin u = true)
    (hread : Community.read s data.community_id = some c) :
    ∃ s3 : SiteState,
      purge_community data s u = Except.ok ({ success := true }, s3) ∧
      Community.read s3 data.community_id = none ∧
      s3.images.filter (fun i => i.1 == data.community_id) = [] ∧
      s3.modLog = s.modLog ++ [{ admin_person_id := u.person.id, reason := data.reason }] ∧
      s3.queue = s.queue ++
        [SendActivityData.RemoveCommunity u.person c data.reason true] := by
  refine ⟨{ communities := s.communities.filter (fun c2 => !(c2.id == data.community_id)),
            images := s.images.filter (fun i => !(i.1 == data.community_id)),
            modLog := s.modLog ++ [{ admin_person_id := u.person.id, reason := data.reason }],
            queue := s.queue ++
              [SendActivityData.RemoveCommunity u.person c data.reason true] },
    ?_, ?_, ?_, rfl, rfl⟩
  · unfold purge_community
    rw [hadmin, hread]
    rfl
  · exact find?_filter_bnot (fun c2 => c2.id == data.community_id) s.communities
  · exact filter_filter_bnot (fun i => i.1 == data.community_id) s.images

theorem purge_community_effects_witness :
    ∃ s3 : SiteState,
      purge_community samplePurge sampleSiteState adminUser =
        Except.ok ({ success := true }, s3) ∧
      Community.read s3 samplePurge.community_id = none ∧
      s3.images.filter (fun i => i.1 == samplePurge.community_id) = [] ∧
      s3.modLog = sampleSiteState.modLog ++
        [{ admin_person_id := adminUser.person.id, reason := samplePurge.reason }] ∧
      s3.queue = sampleSiteState.queue ++
        [SendActivityData.RemoveCommunity adminUser.person sampleCommunity
          samplePurge.reason true] :=
  purge_community_effects samplePurge sampleSiteState adminUser sampleCommunity
    (by decide) (by decide)

/-- C9: submitting the dispatch item decouples the caller from delivery:
the outcome purge_community returns is fixed before any delivery is
attempted, so any two delivery-failure patterns and destination sets give
the caller the same result, which equals the purge outcome itself. -/
theorem submit_decoupled_from_delivery (data : PurgeCommunity) (s : SiteState)
    (u : LocalUserView) (f1 f2 : SendActivityData → Nat → Bool) (d1 d2 : List Nat) :
    purgeThenDeliver f1 d1 data s u = purgeThenDeliver f2 d2 data s u ∧
    purgeThenDeliver f1 d1 data s u =
      (purge_community data s u).map (fun r => r.1) := by
  unfold purgeThenDeliver
  cases purge_community data s u with
  | error e => exact ⟨rfl, rfl⟩
  | ok pr => exact ⟨rfl, rfl⟩
